import Mathlib

/-!
# Shallow embedding of `static/js/dashboard.js` (melodix-web)

The file models the client-side dashboard script as pure Lean functions:

* JS numbers that are in fact integers are modelled as `Nat`/`Int`;
  `Math.floor` of a division by a positive constant is `Int.fdiv`.
* `Number.prototype.toFixed(1)` applied to the exact quotients `n / 1000`
  and `n / 1000000` is modelled by rounding `n` to the nearest tenth of
  the divisor, ties away from zero (the rounding ECMAScript specifies;
  double representation noise is ignored).
* Optional string fields (`image`, `spotify_url`, `preview_url`,
  `email`, …) are plain `String`s with `""` standing for an absent/falsy
  value — the code only ever tests their truthiness and interpolates them.
* The DOM regions the script mutates become fields of a `Dom` record;
  `innerHTML` writes become structured values that keep every
  data-dependent slot of the corresponding template.
* `fetch` is modelled by passing in a `Response` value per request;
  `apiFetch` turns it into `Except String α` exactly as the code throws.
* `Date.now()` and ISO-date parsing are parameters (`now : Int`,
  `parse : String → Int` giving epoch milliseconds).
-/

set_option linter.unusedVariables false

/-- `(num / den).toFixed(1)`: the one-decimal string for the rational
`num / den`, nearest tenth, ties rounded up (ECMAScript `toFixed` picks
the larger candidate on a tie).  `den` is `1000` or `1000000` here. -/
def toFixed1 (num den : Nat) : String :=
  let tenths := (num * 10 + den / 2) / den
  toString (tenths / 10) ++ "." ++ toString (tenths % 10)

/-- `formatNumber(n)` from dashboard.js:
`if (n >= 1_000_000) return (n / 1_000_000).toFixed(1) + 'M';
 if (n >= 1_000) return (n / 1_000).toFixed(1) + 'K';
 return n.toString();` -/
def formatNumber (n : Nat) : String :=
  if n ≥ 1000000 then toFixed1 n 1000000 ++ "M"
  else if n ≥ 1000 then toFixed1 n 1000 ++ "K"
  else toString n

/-- `timeAgo(isoString)` from dashboard.js.  `none` models a null/undefined
argument, `some ""` the empty string (both falsy).  `parse s` is
`new Date(s).getTime()`, `now` is `Date.now()`, both in milliseconds. -/
def timeAgo (parse : String → Int) (now : Int) (isoString : Option String) : String :=
  match isoString with
  | none => ""
  | some s =>
    if s = "" then ""
    else
      let diff := now - parse s
      let mins := diff.fdiv 60000
      if mins < 60 then "hace " ++ toString mins ++ "m"
      else
        let hrs := mins.fdiv 60
        if hrs < 24 then "hace " ++ toString hrs ++ "h"
        else "hace " ++ toString (hrs.fdiv 24) ++ "d"

/-- An HTTP response as the code observes it: `res.ok`, `res.status` and the
already-decoded JSON body. -/
structure Response (α : Type) where
  ok : Bool
  status : Nat
  body : α
  deriving Repr

/-- `apiFetch(url)`:
`const res = await fetch(url);
 if (!res.ok) throw new Error(`Error ${res.status} en ${url}`);
 return res.json();` -/
def apiFetch {α : Type} (url : String) (res : Response α) : Except String α :=
  if !res.ok then .error ("Error " ++ toString res.status ++ " en " ++ url)
  else .ok res.body

/-- The `profile` object of the summary payload. -/
structure Profile where
  name : String
  email : String
  id : String
  image : String
  product : String
  country : String
  followers : Nat
  deriving Repr, DecidableEq

/-- One artist record (`top_artists` entries). -/
structure Artist where
  name : String
  image : String
  followers : Nat
  spotify_url : String
  deriving Repr, DecidableEq

/-- One track record (`top_tracks` entries); `popularity || 0` makes a
missing popularity behave as `0`, so the field is a plain `Nat`. -/
structure Track where
  name : String
  artist : String
  image : String
  popularity : Nat
  spotify_url : String
  deriving Repr, DecidableEq

/-- One recently-played track (`recent_tracks` entries). -/
structure RecentTrack where
  name : String
  artist : String
  image : String
  played_at : String
  deriving Repr, DecidableEq

/-- One recommendation record. -/
structure RecTrack where
  name : String
  artist : String
  explanation : String
  image : String
  preview_url : String
  spotify_url : String
  deriving Repr, DecidableEq

/-- `/api/dashboard/summary` payload; `genre_distribution` is a JS object,
`Object.entries` iterates it in insertion order, so it is an assoc list. -/
structure Summary where
  profile : Profile
  top_artists : List Artist
  top_tracks : List Track
  genre_distribution : List (String × Nat)
  recent_tracks : List RecentTrack
  deriving Repr

/-- `/api/recommendations` payload. -/
structure RecData where
  profile_description : String
  recommendations : List RecTrack
  deriving Repr

/-- `/api/top/artists` payload. -/
structure ArtistsPayload where
  artists : List Artist
  deriving Repr

/-- `/api/top/tracks` payload. -/
structure TracksPayload where
  tracks : List Track
  deriving Repr

/-- Content of the `#loadingScreen` element: the initial spinner markup, or
the error markup `loadDashboard` writes on failure (a `<p>` with the message
and an `<a>` whose `href` is the link target). -/
inductive LoadScreen where
  | spinner : LoadScreen
  | error (message : String) (linkHref : String) : LoadScreen
  deriving Repr, DecidableEq

/-- One `.artist-card` anchor appended to `#artistsGrid`; every
data-dependent slot of the template (href, image or placeholder, name,
rank line) is a field. -/
structure ArtistCard where
  href : String
  image : String
  name : String
  rank : Nat
  followersText : String
  deriving Repr, DecidableEq

/-- One `.track-item` appended to `#tracksList`. -/
structure TrackItem where
  num : Nat
  image : String
  name : String
  artist : String
  pop : Nat
  link : String
  deriving Repr, DecidableEq

/-- One `.genre-item` appended to `#genresList`. -/
structure GenreItem where
  idx : Nat
  name : String
  count : Nat
  deriving Repr, DecidableEq

/-- One `.recent-item` appended to `#recentList`. -/
structure RecentItem where
  image : String
  name : String
  artist : String
  timeText : String
  deriving Repr, DecidableEq

/-- One `.rec-card` appended to `#recommendationsGrid`. -/
structure RecCard where
  image : String
  name : String
  artist : String
  explanation : String
  previewUrl : String
  spotifyUrl : String
  deriving Repr, DecidableEq

/-- Content of `#recommendationsGrid`: pristine, loading spinner, inline
error paragraph, the empty-state message, or the rendered cards. -/
inductive RecGrid where
  | initial : RecGrid
  | spinner : RecGrid
  | errorMsg (message : String) : RecGrid
  | emptyMsg : RecGrid
  | cards (cs : List RecCard) : RecGrid
  deriving Repr, DecidableEq

/-- What the `#genreChart` canvas displays: the doughnut's labels and data
(the first 10 genre entries). -/
structure ChartData where
  labels : List String
  data : List Nat
  deriving Repr, DecidableEq

/-- The DOM regions dashboard.js mutates, one field per element (or per
mutated property of an element). -/
structure Dom where
  loadingDisplay : String
  dashboardDisplay : String
  loadingContent : LoadScreen
  topbarGreeting : String
  userAvatar : String
  profileAvatar : String
  profileName : String
  profileMeta : String
  profilePlan : String
  profileCountry : String
  statFollowers : String
  statTopArtist : String
  statTopTrack : String
  statTopGenre : String
  artistsGrid : List ArtistCard
  tracksList : List TrackItem
  genresList : List GenreItem
  genreCanvas : Option ChartData
  recentList : List RecentItem
  recommendationsGrid : RecGrid
  profileDescription : String
  deriving Repr, DecidableEq

/-- Bookkeeping for Chart.js instances: `alive` lists the ids of the
constructed-and-not-destroyed instances, `current` is the `genreChart`
module variable (`none` = `null`), `next` is the next fresh id. -/
structure ChartState where
  alive : List Nat
  current : Option Nat
  next : Nat
  deriving Repr, DecidableEq

/-- `setLoading(loading)`. -/
def setLoading (loading : Bool) (d : Dom) : Dom :=
  { d with loadingDisplay := if loading then "flex" else "none",
           dashboardDisplay := if loading then "none" else "block" }

/-- `renderProfile(profile)`. -/
def renderProfile (profile : Profile) (d : Dom) : Dom :=
  let avatar := if profile.image = "" then "https://via.placeholder.com/72" else profile.image
  { d with
    topbarGreeting := "Hola, " ++ profile.name ++ " 👋",
    userAvatar := avatar,
    profileAvatar := avatar,
    profileName := if profile.name = "" then "—" else profile.name,
    profileMeta :=
      if profile.email ≠ "" then profile.email
      else if profile.id ≠ "" then profile.id
      else "—",
    profilePlan := if profile.product = "premium" then "⭐ Premium" else "Free",
    profileCountry := if profile.country = "" then "—" else profile.country }

/-- The `.artist-card` built for `artists[i]` (`i` 0-based). -/
def artistCard (i : Nat) (a : Artist) : ArtistCard :=
  { href := if a.spotify_url = "" then "#" else a.spotify_url,
    image := a.image,
    name := a.name,
    rank := i + 1,
    followersText := formatNumber a.followers }

/-- `renderTopArtists(artists)`: clear `#artistsGrid`, set the top-artist
stat card when `artists[0]` exists, then append one card per artist. -/
def renderTopArtists (artists : List Artist) (d : Dom) : Dom :=
  let d1 :=
    match artists.head? with
    | some a => { d with statTopArtist := a.name }
    | none => d
  { d1 with artistsGrid := artists.enum.map (fun p => artistCard p.1 p.2) }

/-- The `.track-item` built for `tracks[i]`. -/
def trackItem (i : Nat) (t : Track) : TrackItem :=
  { num := i + 1,
    image := t.image,
    name := t.name,
    artist := t.artist,
    pop := t.popularity,
    link := t.spotify_url }

/-- `renderTopTracks(tracks)`. -/
def renderTopTracks (tracks : List Track) (d : Dom) : Dom :=
  let d1 :=
    match tracks.head? with
    | some t => { d with statTopTrack := t.name }
    | none => d
  { d1 with tracksList := tracks.enum.map (fun p => trackItem p.1 p.2) }

/-- `renderGenres(genres)`: empty `Object.entries` returns early touching
nothing; otherwise set the stat card, rebuild `#genresList` from the first
10 entries, destroy an existing chart instance and construct a new one over
the first 10 entries. -/
def renderGenres (genres : List (String × Nat)) (d : Dom) (cs : ChartState) :
    Dom × ChartState :=
  match genres with
  | [] => (d, cs)
  | (g0, _) :: _ =>
    let top := genres.take 10
    let d1 :=
      { d with
        statTopGenre := g0,
        genresList := top.enum.map (fun p => ⟨p.1 + 1, p.2.1, p.2.2⟩),
        genreCanvas := some ⟨top.map Prod.fst, top.map Prod.snd⟩ }
    let cs1 :=
      match cs.current with
      | some c => { cs with alive := cs.alive.filter (fun x => x ≠ c), current := none }
      | none => cs
    (d1, { alive := cs1.alive ++ [cs1.next],
           current := some cs1.next,
           next := cs1.next + 1 })

/-- The `.recent-item` built for a recently played track. -/
def recentItem (parse : String → Int) (now : Int) (t : RecentTrack) : RecentItem :=
  { image := t.image,
    name := t.name,
    artist := t.artist,
    timeText := timeAgo parse now (some t.played_at) }

/-- `renderRecentTracks(tracks)`. -/
def renderRecentTracks (parse : String → Int) (now : Int)
    (tracks : List RecentTrack) (d : Dom) : Dom :=
  { d with recentList := tracks.map (recentItem parse now) }

/-- `renderStats(profile)` (`profile.followers || 0`). -/
def renderStats (profile : Profile) (d : Dom) : Dom :=
  { d with statFollowers := formatNumber profile.followers }

/-- The `.rec-card` built for a recommendation. -/
def recCard (t : RecTrack) : RecCard :=
  { image := t.image,
    name := t.name,
    artist := t.artist,
    explanation := t.explanation,
    previewUrl := t.preview_url,
    spotifyUrl := t.spotify_url }

/-- `renderRecommendations(data)`: clear the grid, update the subtitle when
`profile_description` is truthy, then either the empty-state paragraph or
one card per recommendation. -/
def renderRecommendations (data : RecData) (d : Dom) : Dom :=
  let d1 :=
    if data.profile_description ≠ "" then
      { d with profileDescription := "🎵 Tu perfil: " ++ data.profile_description }
    else d
  if data.recommendations.isEmpty then
    { d1 with recommendationsGrid := RecGrid.emptyMsg }
  else
    { d1 with recommendationsGrid := RecGrid.cards (data.recommendations.map recCard) }

/-- Full client-side state: DOM, Chart.js bookkeeping, the
`currentTimeRange` module variable, the `console.error` log, and the list
of URLs passed to `fetch` (in request order). -/
structure State where
  dom : Dom
  charts : ChartState
  currentTimeRange : String
  log : List String
  fetches : List String
  deriving Repr

/-- `loadRecommendations()`: put the spinner into the grid, fetch
`/api/recommendations`, then render on success or write the inline error
paragraph on failure. -/
def loadRecommendations (recRes : Response RecData) (st : State) : State :=
  let st1 :=
    { st with
      dom := { st.dom with recommendationsGrid := RecGrid.spinner },
      fetches := st.fetches ++ ["/api/recommendations"] }
  match apiFetch "/api/recommendations" recRes with
  | .ok data => { st1 with dom := renderRecommendations data st1.dom }
  | .error m =>
    { st1 with dom := { st1.dom with recommendationsGrid := RecGrid.errorMsg ("❌ Error: " ++ m) } }

/-- `loadDashboard(timeRange = 'medium_term')`: show the loading screen,
fetch the summary; on success run every renderer, reveal the dashboard and
kick off the recommendations load; on failure log and replace the loading
screen's content with the error message plus a link to `/`.  `timeRange`
is the JS parameter (unused by the body, exactly as in the source). -/
def loadDashboard (timeRange : String) (parse : String → Int) (now : Int)
    (summaryRes : Response Summary) (recRes : Response RecData) (st : State) : State :=
  let st0 :=
    { st with
      dom := setLoading true st.dom,
      fetches := st.fetches ++ ["/api/dashboard/summary"] }
  match apiFetch "/api/dashboard/summary" summaryRes with
  | .error m =>
    { st0 with
      log := st0.log ++ ["Error cargando el dashboard: " ++ m],
      dom := { st0.dom with
               loadingContent := LoadScreen.error ("❌ Error al cargar datos: " ++ m) "/" } }
  | .ok s =>
    let d1 := renderProfile s.profile st0.dom
    let d2 := renderStats s.profile d1
    let d3 := renderTopArtists s.top_artists d2
    let d4 := renderTopTracks s.top_tracks d3
    let gc := renderGenres s.genre_distribution d4 st0.charts
    let d6 := renderRecentTracks parse now s.recent_tracks gc.1
    let d7 := setLoading false d6
    loadRecommendations recRes { st0 with dom := d7, charts := gc.2 }

/-- `reloadWithTimeRange(timeRange)`: record the range, fetch top artists
and top tracks in parallel (`Promise.all` — the reject of the first listed
failing fetch becomes the caught error), re-render the two widgets on joint
success, only `console.error` on any failure. -/
def reloadWithTimeRange (timeRange : String)
    (artistsRes : Response ArtistsPayload) (tracksRes : Response TracksPayload)
    (st : State) : State :=
  let artistsUrl := "/api/top/artists?time_range=" ++ timeRange ++ "&limit=10"
  let tracksUrl := "/api/top/tracks?time_range=" ++ timeRange ++ "&limit=10"
  let st1 :=
    { st with
      currentTimeRange := timeRange,
      fetches := st.fetches ++ [artistsUrl, tracksUrl] }
  match apiFetch artistsUrl artistsRes, apiFetch tracksUrl tracksRes with
  | .ok a, .ok t =>
    { st1 with dom := renderTopTracks t.tracks (renderTopArtists a.artists st1.dom) }
  | .error m, _ =>
    { st1 with log := st1.log ++ ["Error recargando por tiempo: " ++ m] }
  | .ok _, .error m =>
    { st1 with log := st1.log ++ ["Error recargando por tiempo: " ++ m] }

/-- One `Audio` object created by the preview click handler: its URL
(`_url`), its `paused` flag, and the button whose handler created it
(the `onended` closure clears that button's class). -/
structure Audio where
  url : String
  paused : Bool
  btn : Nat
  deriving Repr, DecidableEq

/-- State of the preview player attached by `renderRecommendations`:
`buttons` are the `data-url`s of the `.rec-preview-btn`s in the grid (fixed
by the render), `audios` every `Audio` object created so far (in creation
order), `current` the handler's `currentAudio` variable as an index into
`audios` (`none` = `null`), `playingBtns` the set of button indices whose
class list contains `playing`. -/
structure PreviewState where
  buttons : List String
  audios : List Audio
  current : Option Nat
  playingBtns : List Nat
  deriving Repr, DecidableEq

/-- The `data-url`s of the preview buttons `renderRecommendations` creates:
one per recommendation that has a truthy `preview_url`. -/
def previewButtons (recs : List RecTrack) : List String :=
  (recs.filter (fun t => t.preview_url ≠ "")).map (fun t => t.preview_url)

/-- Player state right after the renderer attaches the handlers
(`let currentAudio = null`, no audio created, no `playing` class). -/
def initPreview (btns : List String) : PreviewState :=
  { buttons := btns, audios := [], current := none, playingBtns := [] }

/-- The tail of the click handler: `currentAudio = new Audio(url); ...;
currentAudio.play(); btn.classList.add('playing')`. -/
def startPreview (s : PreviewState) (url : String) (j : Nat) : PreviewState :=
  { s with
    audios := s.audios ++ [{ url := url, paused := false, btn := j }],
    current := some s.audios.length,
    playingBtns := (s.playingBtns.filter (fun x => x ≠ j)) ++ [j] }

/-- The click handler of preview button `j` (no-op if no such button).
Mirrors: if `currentAudio && !currentAudio.paused` then pause it and strip
every `playing` class, and if its `_url` equals the clicked URL set
`currentAudio = null` and return; otherwise fall through to
`startPreview`. -/
def clickPreview (s : PreviewState) (j : Nat) : PreviewState :=
  match s.buttons.get? j with
  | none => s
  | some url =>
    match s.current with
    | none => startPreview s url j
    | some i =>
      match s.audios.get? i with
      | none => startPreview s url j
      | some a =>
        if a.paused = false then
          let s1 :=
            { s with
              audios := s.audios.set i { a with paused := true },
              playingBtns := [] }
          if a.url = url then { s1 with current := none }
          else startPreview s1 url j
        else startPreview s url j

/-- Natural end of playback of `audios[i]`: the element's `paused` becomes
true and the `onended` closure removes the `playing` class from the button
that started it (no-op for an out-of-range index). -/
def endedPreview (s : PreviewState) (i : Nat) : PreviewState :=
  match s.audios.get? i with
  | none => s
  | some a =>
    { s with
      audios := s.audios.set i { a with paused := true },
      playingBtns := s.playingBtns.filter (fun x => x ≠ a.btn) }

/-- States the preview player can reach from a fresh render: closure of
`initPreview` under clicks and natural playback ends. -/
inductive PreviewReach (btns : List String) : PreviewState → Prop where
  | init : PreviewReach btns (initPreview btns)
  | click (s : PreviewState) (j : Nat) :
      PreviewReach btns s → PreviewReach btns (clickPreview s j)
  | ended (s : PreviewState) (i : Nat) :
      PreviewReach btns s → PreviewReach btns (endedPreview s i)

/-- The audios currently playing (created and not paused/ended). -/
def playingAudios (s : PreviewState) : List Audio :=
  s.audios.filter (fun a => !a.paused)

/-- `needle` occurs as a contiguous substring of `hay`. -/
def strContains (hay needle : String) : Prop :=
  ∃ pre suf, hay = pre ++ needle ++ suf

/-- C5: `formatNumber` returns `n` unchanged as a string below 1000, the
one-decimal "K" form for 1000 ≤ n ≤ 999999, the one-decimal "M" form for
n ≥ 1000000; and `formatNumber 999 = "999"`, `formatNumber 1500 = "1.5K"`,
`formatNumber 2300000 = "2.3M"`. -/
theorem formatNumber_spec (n : Nat) :
    (n < 1000 → formatNumber n = toString n) ∧
    (1000 ≤ n → n ≤ 999999 → formatNumber n = toFixed1 n 1000 ++ "K") ∧
    (1000000 ≤ n → formatNumber n = toFixed1 n 1000000 ++ "M") ∧
    formatNumber 999 = "999" ∧
    formatNumber 1500 = "1.5K" ∧
    formatNumber 2300000 = "2.3M" := by
  refine ⟨?_, ?_, ?_, by decide, by decide, by decide⟩
  · intro h
    unfold formatNumber
    rw [if_neg (by omega), if_neg (by omega)]
  · intro h1 h2
    unfold formatNumber
    rw [if_neg (by omega), if_pos (by omega)]
  · intro h
    unfold formatNumber
    rw [if_pos (by omega)]

/-- Witness for C5 at n = 999, 1500, 2300000. -/
theorem formatNumber_spec_witness :
    formatNumber 999 = toString 999 ∧
    formatNumber 1500 = toFixed1 1500 1000 ++ "K" ∧
    formatNumber 2300000 = toFixed1 2300000 1000000 ++ "M" :=
  ⟨(formatNumber_spec 999).1 (by decide),
   (formatNumber_spec 1500).2.1 (by decide) (by decide),
   (formatNumber_spec 2300000).2.2.1 (by decide)⟩

/-- C6: `timeAgo` is `""` on falsy input (null or empty string); otherwise,
with `m` the floored elapsed minutes, it is the minutes form for `m < 60`,
else the hours form while the floored hours are `< 24`, else the days
form. -/
theorem timeAgo_spec (parse : String → Int) (now : Int) (s : String) (hs : s ≠ "") :
    timeAgo parse now none = "" ∧
    timeAgo parse now (some "") = "" ∧
    (∀ m : Int, m = (now - parse s).fdiv 60000 →
      (m < 60 → timeAgo parse now (some s) = "hace " ++ toString m ++ "m") ∧
      (¬ m < 60 → m.fdiv 60 < 24 →
        timeAgo parse now (some s) = "hace " ++ toString (m.fdiv 60) ++ "h") ∧
      (¬ m < 60 → ¬ m.fdiv 60 < 24 →
        timeAgo parse now (some s) = "hace " ++ toString ((m.fdiv 60).fdiv 24) ++ "d")) := by
  refine ⟨rfl, rfl, ?_⟩
  intro m hm
  subst hm
  simp only [timeAgo, if_neg hs]
  refine ⟨fun h => by rw [if_pos h], fun h1 h2 => ?_, fun h1 h2 => ?_⟩
  · rw [if_neg h1, if_pos h2]
  · rw [if_neg h1, if_neg h2]

/-- Witness for C6: 90 s in the past gives "hace 1m", 3 h in the past gives
"hace 3h", null gives "". -/
theorem timeAgo_spec_witness :
    timeAgo (fun _ => 0) 90000 (some "t") = "hace 1m" ∧
    timeAgo (fun _ => 0) 10800000 (some "t") = "hace 3h" ∧
    timeAgo (fun _ => 0) 90000 none = "" := by
  have h1 := timeAgo_spec (fun _ => 0) 90000 "t" (by decide)
  have h2 := timeAgo_spec (fun _ => 0) 10800000 "t" (by decide)
  refine ⟨((h1.2.2 1 (by decide)).1 (by decide)).trans (by decide),
          ((h2.2.2 180 (by decide)).2.1 (by decide) (by decide)).trans (by decide),
          h1.1⟩

/-- C10: the `timeRange` parameter of `loadDashboard` is dead: any two
values produce the same fetches, the same rendering and the same final
state. -/
theorem loadDashboard_timeRange_irrelevant (t1 t2 : String) (parse : String → Int)
    (now : Int) (summaryRes : Response Summary) (recRes : Response RecData)
    (st : State) :
    loadDashboard t1 parse now summaryRes recRes st =
      loadDashboard t2 parse now summaryRes recRes st := rfl

/-- A middle factor of a concatenation is contained in it. -/
theorem strContains_mid (a b s c : String) : strContains (a ++ (b ++ s ++ c)) s :=
  ⟨a ++ b, c, by simp only [String.append_assoc]⟩

/-- A final factor of a concatenation is contained in it. -/
theorem strContains_suffix (a s : String) : strContains (a ++ s) s :=
  ⟨a, "", by simp only [String.append_empty]⟩

/-- C1: when the summary fetch responds with a non-success status,
`loadDashboard` replaces the loading screen's content with the error markup
whose message is `apiFetch`'s message (it contains the status code and the
URL) prefixed by the UI text, with a link whose `href` is `/`, and the
dashboard content region stays `display: none`. -/
theorem loadDashboard_failure (tr : String) (parse : String → Int) (now : Int)
    (summaryRes : Response Summary) (recRes : Response RecData) (st : State)
    (h : summaryRes.ok = false) :
    (loadDashboard tr parse now summaryRes recRes st).dom.loadingContent =
      LoadScreen.error
        ("❌ Error al cargar datos: " ++
          ("Error " ++ toString summaryRes.status ++ " en " ++ "/api/dashboard/summary"))
        "/" ∧
    strContains
      ("❌ Error al cargar datos: " ++
        ("Error " ++ toString summaryRes.status ++ " en " ++ "/api/dashboard/summary"))
      (toString summaryRes.status) ∧
    strContains
      ("❌ Error al cargar datos: " ++
        ("Error " ++ toString summaryRes.status ++ " en " ++ "/api/dashboard/summary"))
      "/api/dashboard/summary" ∧
    (loadDashboard tr parse now summaryRes recRes st).dom.dashboardDisplay = "none" := by
  refine ⟨?_, ?_, ?_, ?_⟩
  · simp [loadDashboard, apiFetch, h, setLoading]
  · exact ⟨"❌ Error al cargar datos: " ++ "Error ",
      " en " ++ "/api/dashboard/summary", by simp only [String.append_assoc]⟩
  · exact ⟨"❌ Error al cargar datos: " ++ ("Error " ++ toString summaryRes.status ++ " en "),
      "", by simp only [String.append_empty, String.append_assoc]⟩
  · simp [loadDashboard, apiFetch, h, setLoading]

/-- Witness for C1 at a concrete 500 response. -/
theorem loadDashboard_failure_witness :
    ((loadDashboard "medium_term" (fun _ => 0) 0
        ({ ok := false, status := 500,
           body := ⟨⟨"", "", "", "", "", "", 0⟩, [], [], [], []⟩ } : Response Summary)
        ({ ok := true, status := 200, body := ⟨"", []⟩ } : Response RecData)
        ⟨⟨"flex", "none", LoadScreen.spinner, "", "", "", "", "", "", "", "", "", "", "",
          [], [], [], none, [], RecGrid.initial, ""⟩,
         ⟨[], none, 0⟩, "medium_term", [], []⟩).dom.loadingContent =
      LoadScreen.error
        ("❌ Error al cargar datos: " ++
          ("Error " ++ toString 500 ++ " en " ++ "/api/dashboard/summary")) "/") := by
  exact (loadDashboard_failure "medium_term" (fun _ => 0) 0 _ _ _ rfl).1

/-- C2: if either fetch of a time-range reload fails, the DOM is left
completely unchanged (in particular neither `renderTopArtists` nor
`renderTopTracks` output reaches the widgets) and the only effect is a
`console.error` entry. -/
theorem reloadWithTimeRange_failure (tr : String)
    (artistsRes : Response ArtistsPayload) (tracksRes : Response TracksPayload)
    (st : State) (h : artistsRes.ok = false ∨ tracksRes.ok = false) :
    (reloadWithTimeRange tr artistsRes tracksRes st).dom = st.dom ∧
    ∃ m, (reloadWithTimeRange tr artistsRes tracksRes st).log =
      st.log ++ ["Error recargando por tiempo: " ++ m] := by
  cases ha : artistsRes.ok with
  | false =>
    constructor
    · simp [reloadWithTimeRange, apiFetch, ha]
    · exact ⟨"Error " ++ toString artistsRes.status ++ " en " ++
          ("/api/top/artists?time_range=" ++ tr ++ "&limit=10"),
        by simp [reloadWithTimeRange, apiFetch, ha]⟩
  | true =>
    cases ht : tracksRes.ok with
    | false =>
      constructor
      · simp [reloadWithTimeRange, apiFetch, ha, ht]
      · exact ⟨"Error " ++ toString tracksRes.status ++ " en " ++
            ("/api/top/tracks?time_range=" ++ tr ++ "&limit=10"),
          by simp [reloadWithTimeRange, apiFetch, ha, ht]⟩
    | true =>
      rcases h with h | h
      · rw [ha] at h; exact absurd h (by simp)
      · rw [ht] at h; exact absurd h (by simp)

/-- Witness for C2: a failing artists fetch leaves the DOM untouched. -/
theorem reloadWithTimeRange_failure_witness :
    ((reloadWithTimeRange "short_term"
        ({ ok := false, status := 502, body := ⟨[]⟩ } : Response ArtistsPayload)
        ({ ok := true, status := 200, body := ⟨[]⟩ } : Response TracksPayload)
        ⟨⟨"none", "block", LoadScreen.spinner, "", "", "", "", "", "", "", "", "old artist",
          "old track", "", [], [], [], none, [], RecGrid.initial, ""⟩,
         ⟨[], none, 0⟩, "medium_term", [], []⟩).dom =
      ⟨"none", "block", LoadScreen.spinner, "", "", "", "", "", "", "", "", "old artist",
        "old track", "", [], [], [], none, [], RecGrid.initial, ""⟩) :=
  (reloadWithTimeRange_failure "short_term" _ _ _ (Or.inl rfl)).1

/-- A pristine DOM as dashboard.html serves it: loading screen visible,
dashboard hidden, every region empty. -/
def dom0 : Dom :=
  ⟨"flex", "none", LoadScreen.spinner, "", "", "", "", "", "", "", "", "", "", "",
   [], [], [], none, [], RecGrid.initial, ""⟩

/-- Initial client state: pristine DOM, `genreChart = null`,
`currentTimeRange = 'medium_term'`, nothing logged or fetched yet. -/
def state0 : State := ⟨dom0, ⟨[], none, 0⟩, "medium_term", [], []⟩

/-- Counterexample to C9 as stated: a successful time-range reload does NOT
leave all stat cards unchanged — with a non-empty artists payload the
top-artist stat card is overwritten. -/
theorem reloadWithTimeRange_changes_statTopArtist :
    ((reloadWithTimeRange "short_term"
        ({ ok := true, status := 200, body := ⟨[⟨"New Artist", "", 0, ""⟩]⟩ } :
          Response ArtistsPayload)
        ({ ok := true, status := 200, body := ⟨[]⟩ } : Response TracksPayload)
        { state0 with dom := { dom0 with statTopArtist := "Old Artist" } }).dom.statTopArtist
      = "New Artist") ∧
    ¬ ((reloadWithTimeRange "short_term"
        ({ ok := true, status := 200, body := ⟨[⟨"New Artist", "", 0, ""⟩]⟩ } :
          Response ArtistsPayload)
        ({ ok := true, status := 200, body := ⟨[]⟩ } : Response TracksPayload)
        { state0 with dom := { dom0 with statTopArtist := "Old Artist" } }).dom.statTopArtist
      = "Old Artist") := by
  constructor
  · simp [reloadWithTimeRange, apiFetch, renderTopArtists, renderTopTracks, state0, dom0]
  · simp [reloadWithTimeRange, apiFetch, renderTopArtists, renderTopTracks, state0, dom0]

/-- C9 (amended): a successful time-range reload rebuilds exactly the two
widgets, updates the top-artist / top-track stat cards only when the
corresponding fetched list is non-empty, and leaves every other DOM region
(profile, followers and genre stat cards, genres list, chart canvas, recent
plays, recommendations, loading screen) and the chart bookkeeping
unchanged. -/
theorem reloadWithTimeRange_success_frame (tr : String)
    (artistsRes : Response ArtistsPayload) (tracksRes : Response TracksPayload)
    (st : State) (ha : artistsRes.ok = true) (ht : tracksRes.ok = true) :
    (reloadWithTimeRange tr artistsRes tracksRes st).dom.artistsGrid =
        artistsRes.body.artists.enum.map (fun p => artistCard p.1 p.2) ∧
    (reloadWithTimeRange tr artistsRes tracksRes st).dom.tracksList =
        tracksRes.body.tracks.enum.map (fun p => trackItem p.1 p.2) ∧
    (artistsRes.body.artists = [] →
      (reloadWithTimeRange tr artistsRes tracksRes st).dom.statTopArtist =
        st.dom.statTopArtist) ∧
    (∀ a rest, artistsRes.body.artists = a :: rest →
      (reloadWithTimeRange tr artistsRes tracksRes st).dom.statTopArtist = a.name) ∧
    (tracksRes.body.tracks = [] →
      (reloadWithTimeRange tr artistsRes tracksRes st).dom.statTopTrack =
        st.dom.statTopTrack) ∧
    (∀ t rest, tracksRes.body.tracks = t :: rest →
      (reloadWithTimeRange tr artistsRes tracksRes st).dom.statTopTrack = t.name) ∧
    (reloadWithTimeRange tr artistsRes tracksRes st).dom.loadingDisplay = st.dom.loadingDisplay ∧
    (reloadWithTimeRange tr artistsRes tracksRes st).dom.dashboardDisplay = st.dom.dashboardDisplay ∧
    (reloadWithTimeRange tr artistsRes tracksRes st).dom.loadingContent = st.dom.loadingContent ∧
    (reloadWithTimeRange tr artistsRes tracksRes st).dom.topbarGreeting = st.dom.topbarGreeting ∧
    (reloadWithTimeRange tr artistsRes tracksRes st).dom.userAvatar = st.dom.userAvatar ∧
    (reloadWithTimeRange tr artistsRes tracksRes st).dom.profileAvatar = st.dom.profileAvatar ∧
    (reloadWithTimeRange tr artistsRes tracksRes st).dom.profileName = st.dom.profileName ∧
    (reloadWithTimeRange tr artistsRes tracksRes st).dom.profileMeta = st.dom.profileMeta ∧
    (reloadWithTimeRange tr artistsRes tracksRes st).dom.profilePlan = st.dom.profilePlan ∧
    (reloadWithTimeRange tr artistsRes tracksRes st).dom.profileCountry = st.dom.profileCountry ∧
    (reloadWithTimeRange tr artistsRes tracksRes st).dom.statFollowers = st.dom.statFollowers ∧
    (reloadWithTimeRange tr artistsRes tracksRes st).dom.statTopGenre = st.dom.statTopGenre ∧
    (reloadWithTimeRange tr artistsRes tracksRes st).dom.genresList = st.dom.genresList ∧
    (reloadWithTimeRange tr artistsRes tracksRes st).dom.genreCanvas = st.dom.genreCanvas ∧
    (reloadWithTimeRange tr artistsRes tracksRes st).dom.recentList = st.dom.recentList ∧
    (reloadWithTimeRange tr artistsRes tracksRes st).dom.recommendationsGrid =
        st.dom.recommendationsGrid ∧
    (reloadWithTimeRange tr artistsRes tracksRes st).dom.profileDescription =
        st.dom.profileDescription ∧
    (reloadWithTimeRange tr artistsRes tracksRes st).charts = st.charts := by
  cases hl1 : artistsRes.body.artists with
  | nil =>
    cases hl2 : tracksRes.body.tracks with
    | nil =>
      simp [reloadWithTimeRange, apiFetch, ha, ht, renderTopArtists, renderTopTracks, hl1, hl2]
    | cons t rest =>
      simp [reloadWithTimeRange, apiFetch, ha, ht, renderTopArtists, renderTopTracks, hl1, hl2]
  | cons a rest =>
    cases hl2 : tracksRes.body.tracks with
    | nil =>
      simp [reloadWithTimeRange, apiFetch, ha, ht, renderTopArtists, renderTopTracks, hl1, hl2]
    | cons t rest2 =>
      simp [reloadWithTimeRange, apiFetch, ha, ht, renderTopArtists, renderTopTracks, hl1, hl2]

/-- Witness for C9 (amended) at a concrete successful reload. -/
theorem reloadWithTimeRange_success_frame_witness :
    (reloadWithTimeRange "long_term"
        ({ ok := true, status := 200, body := ⟨[⟨"A", "", 10, ""⟩]⟩ } : Response ArtistsPayload)
        ({ ok := true, status := 200, body := ⟨[]⟩ } : Response TracksPayload)
        state0).dom.recentList = state0.dom.recentList ∧
    (reloadWithTimeRange "long_term"
        ({ ok := true, status := 200, body := ⟨[⟨"A", "", 10, ""⟩]⟩ } : Response ArtistsPayload)
        ({ ok := true, status := 200, body := ⟨[]⟩ } : Response TracksPayload)
        state0).dom.statTopArtist = "A" := by
  have h := reloadWithTimeRange_success_frame "long_term"
    ({ ok := true, status := 200, body := ⟨[⟨"A", "", 10, ""⟩]⟩ } : Response ArtistsPayload)
    ({ ok := true, status := 200, body := ⟨[]⟩ } : Response TracksPayload)
    state0 rfl rfl
  exact ⟨h.2.2.2.2.2.2.2.2.2.2.2.2.2.2.2.2.2.2.2.2.1,
         h.2.2.2.1 ⟨"A", "", 10, ""⟩ [] rfl⟩

/-- The alive-instance list a well-formed `genreChart` variable implies:
nothing when `null`, exactly the referenced instance otherwise. -/
def chartAliveOf : Option Nat → List Nat
  | none => []
  | some c => [c]

/-- Chart bookkeeping invariant: the alive instances are exactly the one
`genreChart` points to (if any), and ids in use are below the fresh id. -/
def chartInv (cs : ChartState) : Prop :=
  cs.alive = chartAliveOf cs.current ∧ ∀ c, cs.current = some c → c < cs.next

/-- `renderGenres` preserves the chart bookkeeping invariant. -/
theorem renderGenres_chartInv (genres : List (String × Nat)) (d : Dom)
    (cs : ChartState) (h : chartInv cs) : chartInv (renderGenres genres d cs).2 := by
  obtain ⟨h1, h2⟩ := h
  cases genres with
  | nil => exact ⟨h1, h2⟩
  | cons p gs =>
    cases hc : cs.current with
    | none =>
      refine ⟨?_, ?_⟩
      · simp [renderGenres, hc, h1, chartAliveOf]
      · intro c hcc
        simp [renderGenres, hc] at hcc ⊢
        omega
    | some c0 =>
      refine ⟨?_, ?_⟩
      · simp [renderGenres, hc, h1, chartAliveOf]
      · intro c hcc
        simp [renderGenres, hc] at hcc ⊢
        omega

/-- On non-empty input `renderGenres` leaves exactly the freshly
constructed instance alive, and the previously referenced instance is no
longer alive. -/
theorem renderGenres_nonempty_alive (genres : List (String × Nat)) (d : Dom)
    (cs : ChartState) (h : chartInv cs) (hg : genres ≠ []) :
    (renderGenres genres d cs).2.alive = [cs.next] ∧
    (∀ c, cs.current = some c → c ∉ (renderGenres genres d cs).2.alive) := by
  obtain ⟨h1, h2⟩ := h
  cases genres with
  | nil => exact absurd rfl hg
  | cons p gs =>
    cases hc : cs.current with
    | none =>
      refine ⟨by simp [renderGenres, hc, h1, chartAliveOf], ?_⟩
      intro c hcc
      simp [hc] at hcc
    | some c0 =>
      have hlt : c0 < cs.next := h2 c0 hc
      refine ⟨by simp [renderGenres, hc, h1, chartAliveOf], ?_⟩
      intro c hcc
      injection hcc with hcc
      subst hcc
      simp only [renderGenres, hc, h1, chartAliveOf, List.mem_singleton]
      simp only [List.filter_cons, List.filter_nil]
      simp
      omega

/-- A sequence of `renderGenres` calls, threading DOM and chart state. -/
def runGenres : List (List (String × Nat)) → Dom × ChartState → Dom × ChartState
  | [], p => p
  | g :: gs, p => runGenres gs (renderGenres g p.1 p.2)

/-- `runGenres` preserves the chart bookkeeping invariant. -/
theorem runGenres_chartInv (calls : List (List (String × Nat)))
    (p : Dom × ChartState) (h : chartInv p.2) : chartInv (runGenres calls p).2 := by
  induction calls generalizing p with
  | nil => exact h
  | cons g gs ih => exact ih (renderGenres g p.1 p.2) (renderGenres_chartInv g p.1 p.2 h)

/-- Counterexample to C4 as stated: calling the genre renderer twice with an
empty genre map (starting from the pristine state) leaves zero chart
instances alive, not exactly one — the empty-input early return neither
destroys nor constructs. -/
theorem renderGenres_twice_empty_no_chart :
    (runGenres [[], []] (dom0, ⟨[], none, 0⟩)).2.alive.length = 0 ∧
    ¬ (runGenres [[], []] (dom0, ⟨[], none, 0⟩)).2.alive.length = 1 := by
  constructor
  · rfl
  · intro h
    simp [runGenres, renderGenres] at h

/-- C4 (amended): after any sequence of `renderGenres` calls from the
initial state at most one chart instance is alive; whenever a chart exists
and the input is non-empty the old instance is destroyed and only the new
one is alive; two consecutive calls with non-empty inputs leave exactly one
instance alive. -/
theorem renderGenres_single_chart (calls : List (List (String × Nat))) (d d2 : Dom)
    (g1 g2 : List (String × Nat)) (cs : ChartState) (hinv : chartInv cs)
    (h1 : g1 ≠ []) (h2 : g2 ≠ []) :
    (runGenres calls (d, ⟨[], none, 0⟩)).2.alive.length ≤ 1 ∧
    (∀ c, cs.current = some c → c ∉ (renderGenres g1 d cs).2.alive) ∧
    (renderGenres g2 d2 (renderGenres g1 d cs).2).2.alive.length = 1 := by
  refine ⟨?_, (renderGenres_nonempty_alive g1 d cs hinv h1).2, ?_⟩
  · have hinit : chartInv (⟨[], none, 0⟩ : ChartState) := ⟨rfl, by intro c hc; cases hc⟩
    obtain ⟨ha, _⟩ := runGenres_chartInv calls (d, ⟨[], none, 0⟩) hinit
    rw [ha]
    cases (runGenres calls (d, ⟨[], none, 0⟩)).2.current <;> simp [chartAliveOf]
  · have hstep := renderGenres_chartInv g1 d cs hinv
    have := (renderGenres_nonempty_alive g2 d2 (renderGenres g1 d cs).2 hstep h2).1
    rw [this]
    rfl

/-- Witness for C4 (amended) at concrete calls. -/
theorem renderGenres_single_chart_witness :
    (renderGenres [("indie", 2)] dom0
      (renderGenres [("rock", 3)] dom0 ⟨[], none, 0⟩).2).2.alive.length = 1 :=
  (renderGenres_single_chart [[("rock", 3)]] dom0 dom0 [("rock", 3)] [("indie", 2)]
    ⟨[], none, 0⟩ ⟨rfl, by intro c hc; cases hc⟩ (by simp) (by simp)).2.2

/-- C7: every renderer is idempotent — rendering the same input twice in
succession leaves the DOM exactly as rendering it once (each renderer
clears and rebuilds its region from the input alone; the stat-card and
subtitle writes repeat the same value). -/
theorem renderers_idempotent (profile : Profile) (artists : List Artist)
    (tracks : List Track) (genres : List (String × Nat)) (recents : List RecentTrack)
    (data : RecData) (parse : String → Int) (now : Int) (d : Dom)
    (cs cs2 : ChartState) :
    renderProfile profile (renderProfile profile d) = renderProfile profile d ∧
    renderStats profile (renderStats profile d) = renderStats profile d ∧
    renderTopArtists artists (renderTopArtists artists d) = renderTopArtists artists d ∧
    renderTopTracks tracks (renderTopTracks tracks d) = renderTopTracks tracks d ∧
    (renderGenres genres (renderGenres genres d cs).1 cs2).1 = (renderGenres genres d cs).1 ∧
    renderRecentTracks parse now recents (renderRecentTracks parse now recents d) =
      renderRecentTracks parse now recents d ∧
    renderRecommendations data (renderRecommendations data d) =
      renderRecommendations data d := by
  refine ⟨rfl, rfl, ?_, ?_, ?_, rfl, ?_⟩
  · cases artists <;> rfl
  · cases tracks <;> rfl
  · cases genres <;> rfl
  · by_cases hpd : data.profile_description = "" <;>
      by_cases hre : data.recommendations.isEmpty <;>
      simp [renderRecommendations, hpd, hre]

/-- Counterexample to C8 as stated: on an empty collection `renderGenres`
does NOT clear its container — the early return leaves the previous genre
items in place. -/
theorem renderGenres_empty_skips_clear :
    ((renderGenres [] { dom0 with genresList := [⟨1, "rock", 3⟩] }
        ⟨[], none, 0⟩).1.genresList = [⟨1, "rock", 3⟩]) ∧
    ¬ ((renderGenres [] { dom0 with genresList := [⟨1, "rock", 3⟩] }
        ⟨[], none, 0⟩).1.genresList = []) := by
  exact ⟨rfl, by simp [renderGenres]⟩

/-- C8 (amended): `renderRecentTracks` always replaces its container with
one element per input record, independent of the prior content;
`renderGenres` does so on non-empty input for the first `min 10 n` records
(its container content after a render is independent of the prior DOM);
on empty input `renderGenres` leaves the DOM untouched. -/
theorem renderers_replace_content (tracks : List RecentTrack)
    (genres : List (String × Nat)) (parse : String → Int) (now : Int)
    (d d2 : Dom) (cs cs2 : ChartState) (hg : genres ≠ []) :
    (renderRecentTracks parse now tracks d).recentList.length = tracks.length ∧
    (renderRecentTracks parse now tracks d).recentList =
      (renderRecentTracks parse now tracks d2).recentList ∧
    (renderGenres genres d cs).1.genresList.length = min 10 genres.length ∧
    (renderGenres genres d cs).1.genresList = (renderGenres genres d2 cs2).1.genresList ∧
    (renderGenres [] d cs).1 = d := by
  refine ⟨?_, rfl, ?_, ?_, rfl⟩
  · simp [renderRecentTracks]
  · cases genres with
    | nil => exact absurd rfl hg
    | cons p gs =>
      simp [renderGenres]
      omega
  · cases genres with
    | nil => exact absurd rfl hg
    | cons p gs => rfl

/-- Witness for C8 (amended) at concrete inputs and distinct prior DOMs. -/
theorem renderers_replace_content_witness :
    (renderRecentTracks (fun _ => 0) 0 [⟨"song", "artist", "", "ts"⟩]
        { dom0 with recentList := [⟨"x", "y", "z", "w"⟩] }).recentList.length = 1 ∧
    (renderGenres [("rock", 3)] { dom0 with genresList := [⟨9, "stale", 0⟩] }
        ⟨[], none, 0⟩).1.genresList.length = min 10 1 := by
  have h := renderers_replace_content [⟨"song", "artist", "", "ts"⟩] [("rock", 3)]
    (fun _ => 0) 0 { dom0 with recentList := [⟨"x", "y", "z", "w"⟩] } dom0
    ⟨[], none, 0⟩ ⟨[], none, 0⟩ (by simp)
  exact ⟨h.1, by
    have h2 := renderers_replace_content [⟨"song", "artist", "", "ts"⟩] [("rock", 3)]
      (fun _ => 0) 0 { dom0 with genresList := [⟨9, "stale", 0⟩] } dom0
      ⟨[], none, 0⟩ ⟨[], none, 0⟩ (by simp)
    exact h2.2.2.1⟩

/-- The player invariant: any unpaused audio is the one `currentAudio`
refers to (so there can be at most one). -/
def previewInv (s : PreviewState) : Prop :=
  ∀ i, (h : i < s.audios.length) → (s.audios[i]).paused = false → s.current = some i

/-- A list of audios whose unpaused positions are pairwise equal has at
most one unpaused element. -/
theorem playing_le_one_of_unique (l : List Audio)
    (h : ∀ i j, (hi : i < l.length) → (hj : j < l.length) →
      (l[i]).paused = false → (l[j]).paused = false → i = j) :
    (l.filter (fun a => !a.paused)).length ≤ 1 := by
  induction l with
  | nil => simp
  | cons a t ih =>
    rw [List.filter_cons]
    by_cases hp : a.paused = false
    · have ht : t.filter (fun x => !x.paused) = [] := by
        rw [List.filter_eq_nil_iff]
        intro b hb hpb
        obtain ⟨k, hk, hbk⟩ := List.getElem_of_mem hb
        subst hbk
        have hbf : (t[k]).paused = false := by
          revert hpb
          cases (t[k]).paused <;> simp
        have hk1 : k + 1 < (a :: t).length := by
          simp only [List.length_cons]
          omega
        have h0 := h 0 (k + 1) (by simp only [List.length_cons]; omega) hk1
        simp only [List.getElem_cons_zero, List.getElem_cons_succ] at h0
        exact absurd (h0 hp hbf) (by omega)
      simp [hp, ht]
    · have hp' : a.paused = true := by
        revert hp
        cases a.paused <;> simp
      have hrec := ih (fun i j hi hj hpi hpj => by
        have hi1 : i + 1 < (a :: t).length := by
          simp only [List.length_cons]
          omega
        have hj1 : j + 1 < (a :: t).length := by
          simp only [List.length_cons]
          omega
        have h0 := h (i + 1) (j + 1) hi1 hj1
          (by simpa only [List.getElem_cons_succ] using hpi)
          (by simpa only [List.getElem_cons_succ] using hpj)
        omega)
      simp [hp']
      exact hrec

/-- Under the invariant, at most one preview audio is playing. -/
theorem playingAudios_le_one (s : PreviewState) (hinv : previewInv s) :
    (playingAudios s).length ≤ 1 := by
  apply playing_le_one_of_unique
  intro i j hi hj hpi hpj
  have h1 := hinv i hi hpi
  have h2 := hinv j hj hpj
  rw [h1] at h2
  injection h2

/-- Starting a fresh preview from a state whose audios are all paused
restores the invariant: only the new audio is unpaused and `currentAudio`
points to it. -/
theorem startPreview_inv (s : PreviewState) (url : String) (j : Nat)
    (hall : ∀ k, (hk : k < s.audios.length) → (s.audios[k]).paused = true) :
    previewInv (startPreview s url j) := by
  intro i hi hp
  simp only [startPreview, List.length_append, List.length_cons,
    List.length_nil, Nat.zero_add] at hi
  by_cases hlt : i < s.audios.length
  · exfalso
    have hrw : (startPreview s url j).audios[i] = s.audios[i] := by
      simp only [startPreview]
      exact List.getElem_append_left hlt
    rw [hrw] at hp
    rw [hall i hlt] at hp
    cases hp
  · have hieq : i = s.audios.length := by omega
    subst hieq
    simp [startPreview]

/-- The click handler preserves the invariant. -/
theorem clickPreview_inv (s : PreviewState) (j : Nat) (hinv : previewInv s) :
    previewInv (clickPreview s j) := by
  cases hb : s.buttons.get? j with
  | none => simpa only [clickPreview, hb] using hinv
  | some url =>
    cases hcur : s.current with
    | none =>
      simp only [clickPreview, hb, hcur]
      apply startPreview_inv
      intro k hk
      by_cases hkp : (s.audios[k]).paused = true
      · exact hkp
      · exfalso
        have hf : (s.audios[k]).paused = false := by
          revert hkp
          cases (s.audios[k]).paused <;> simp
        have hc := hinv k hk hf
        rw [hcur] at hc
        cases hc
    | some i =>
      cases ha : s.audios.get? i with
      | none =>
        simp only [clickPreview, hb, hcur, ha]
        apply startPreview_inv
        intro k hk
        by_cases hkp : (s.audios[k]).paused = true
        · exact hkp
        · exfalso
          have hf : (s.audios[k]).paused = false := by
            revert hkp
            cases (s.audios[k]).paused <;> simp
          have hc := hinv k hk hf
          rw [hcur] at hc
          injection hc with hik
          subst hik
          have := List.get?_eq_none.mp ha
          omega
      | some a =>
        obtain ⟨haw, hag⟩ := List.get?_eq_some.mp ha
        rw [List.get_eq_getElem] at hag
        by_cases hap : a.paused = false
        · by_cases hu : a.url = url
          · simp only [clickPreview, hb, hcur, ha, if_pos hap, if_pos hu]
            intro k hk hp
            exfalso
            simp only [List.length_set] at hk
            by_cases hik : k = i
            · subst hik
              simp only [List.getElem_set_self] at hp
              cases hp
            · have hne : ¬ i = k := fun he => hik he.symm
              simp only [List.getElem_set_ne hne] at hp
              have hc := hinv k hk hp
              rw [hcur] at hc
              injection hc with hik2
              exact hik hik2.symm
          · simp only [clickPreview, hb, hcur, ha, if_pos hap, if_neg hu]
            apply startPreview_inv
            intro k hk
            simp only [List.length_set] at hk
            by_cases hik : k = i
            · subst hik
              simp only [List.getElem_set_self]
            · have hne : ¬ i = k := fun he => hik he.symm
              simp only [List.getElem_set_ne hne]
              by_cases hkp : (s.audios[k]).paused = true
              · exact hkp
              · exfalso
                have hf : (s.audios[k]).paused = false := by
                  revert hkp
                  cases (s.audios[k]).paused <;> simp
                have hc := hinv k hk hf
                rw [hcur] at hc
                injection hc with hik2
                exact hik hik2.symm
        · simp only [clickPreview, hb, hcur, ha, if_neg hap]
          apply startPreview_inv
          intro k hk
          by_cases hkp : (s.audios[k]).paused = true
          · exact hkp
          · exfalso
            have hf : (s.audios[k]).paused = false := by
              revert hkp
              cases (s.audios[k]).paused <;> simp
            have hc := hinv k hk hf
            rw [hcur] at hc
            injection hc with hik
            subst hik
            rw [hag] at hf
            exact hap hf

/-- The natural-end transition preserves the invariant. -/
theorem endedPreview_inv (s : PreviewState) (i : Nat) (hinv : previewInv s) :
    previewInv (endedPreview s i) := by
  unfold endedPreview
  cases ha : s.audios.get? i with
  | none => exact hinv
  | some a =>
    intro k hk hp
    simp only [List.length_set] at hk
    by_cases hik : k = i
    · subst hik
      simp only [List.getElem_set_self] at hp
      cases hp
    · have hne : ¬ i = k := fun he => hik he.symm
      simp only [List.getElem_set_ne hne] at hp
      exact hinv k hk hp

/-- Every reachable player state satisfies the invariant. -/
theorem previewReach_inv (btns : List String) (s : PreviewState)
    (h : PreviewReach btns s) : previewInv s := by
  induction h with
  | init =>
    intro i hi hp
    simp [initPreview] at hi
  | click s j hs ih => exact clickPreview_inv s j ih
  | ended s i hs ih => exact endedPreview_inv s i ih

/-- After pausing the audio `currentAudio` refers to, no created audio is
left unpaused (given the invariant). -/
theorem pausedSet_no_playing (s : PreviewState) (i : Nat) (a : Audio)
    (hinv : previewInv s) (hcur : s.current = some i) :
    (s.audios.set i { a with paused := true }).filter (fun x => !x.paused) = [] := by
  rw [List.filter_eq_nil_iff]
  intro b hb hpb
  obtain ⟨k, hk, hbk⟩ := List.getElem_of_mem hb
  subst hbk
  simp only [List.length_set] at hk
  by_cases hik : k = i
  · subst hik
    simp only [List.getElem_set_self] at hpb
    simp at hpb
  · have hne : ¬ i = k := fun he => hik he.symm
    simp only [List.getElem_set_ne hne] at hpb
    have hf : (s.audios[k]).paused = false := by
      revert hpb
      cases (s.audios[k]).paused <;> simp
    have hc := hinv k hk hf
    rw [hcur] at hc
    injection hc with h2
    exact hik h2.symm

/-- C3: in every player state reachable from the recommendations renderer's
wiring, at most one preview is playing; clicking button `j` while a
different-URL preview is playing pauses it and starts (and exclusively
plays) the clicked URL; clicking the currently-playing preview's button
pauses it and leaves nothing playing. -/
theorem preview_mutual_exclusion (recs : List RecTrack) (s : PreviewState)
    (hreach : PreviewReach (previewButtons recs) s) :
    (playingAudios s).length ≤ 1 ∧
    (∀ j i a url, s.buttons.get? j = some url → s.current = some i →
        s.audios.get? i = some a → a.paused = false → a.url = url →
        (clickPreview s j).current = none ∧ playingAudios (clickPreview s j) = []) ∧
    (∀ j i a url, s.buttons.get? j = some url → s.current = some i →
        s.audios.get? i = some a → a.paused = false → a.url ≠ url →
        (clickPreview s j).audios.get? i = some { a with paused := true } ∧
        (clickPreview s j).audios.get? s.audios.length = some ⟨url, false, j⟩ ∧
        (clickPreview s j).current = some s.audios.length ∧
        playingAudios (clickPreview s j) = [⟨url, false, j⟩]) := by
  have hinv := previewReach_inv (previewButtons recs) s hreach
  refine ⟨playingAudios_le_one s hinv, ?_, ?_⟩
  · intro j i a url hb hcur ha hap hu
    constructor
    · simp only [clickPreview, hb, hcur, ha, if_pos hap, if_pos hu]
    · simp only [playingAudios, clickPreview, hb, hcur, ha, if_pos hap, if_pos hu]
      exact pausedSet_no_playing s i a hinv hcur
  · intro j i a url hb hcur ha hap hu
    obtain ⟨haw, hag⟩ := List.get?_eq_some.mp ha
    refine ⟨?_, ?_, ?_, ?_⟩
    · simp only [clickPreview, hb, hcur, ha, if_pos hap, if_neg hu, startPreview]
      rw [List.get?_append (by simp only [List.length_set]; exact haw)]
      simp [List.get?_set_eq, haw]
    · simp only [clickPreview, hb, hcur, ha, if_pos hap, if_neg hu, startPreview]
      have hlen : (s.audios.set i { a with paused := true }).length = s.audios.length :=
        List.length_set ..
      rw [← hlen]
      simp [List.get?_append_right]
    · simp only [clickPreview, hb, hcur, ha, if_pos hap, if_neg hu, startPreview,
        List.length_set]
    · simp only [playingAudios, clickPreview, hb, hcur, ha, if_pos hap, if_neg hu,
        startPreview]
      rw [List.filter_append, pausedSet_no_playing s i a hinv hcur]
      simp

/-- Witness for C3 at a reachable state: after one click on the first of
two rendered preview buttons, at most one preview is playing. -/
theorem preview_mutual_exclusion_witness :
    (playingAudios (clickPreview (initPreview (previewButtons
        [⟨"Song A", "X", "e1", "", "a", ""⟩, ⟨"Song B", "Y", "e2", "", "b", ""⟩])) 0)).length
      ≤ 1 := by
  have h := preview_mutual_exclusion
    [⟨"Song A", "X", "e1", "", "a", ""⟩, ⟨"Song B", "Y", "e2", "", "b", ""⟩]
    (clickPreview (initPreview (previewButtons
      [⟨"Song A", "X", "e1", "", "a", ""⟩, ⟨"Song B", "Y", "e2", "", "b", ""⟩])) 0)
    (PreviewReach.click _ 0 PreviewReach.init)
  exact h.1
